import Mathlib

/-!
Verification development for the `llvm-sdg-dump` tool
(`src/tools/llvm-sdg-dump.cpp`).

The tool resolves textual slicing criteria against a pre-built system
dependence graph (SDG), renders an annotated version of the input module,
and exports the SDG to a dot file.  The shallow embedding below translates
the functions of `llvm-sdg-dump.cpp` into Lean; helpers that live in other
translation units of the repository (`splitList`, `replace_suffix`, the
assembly annotation writer, the criteria-resolution functions declared at
the bottom of the file, and the `SDG2Dot` exporter) are modelled from the
specification, each marked `Modelled from the spec:` in its doc comment.
-/

/-- The annotation category bits of
`dg::debug::LLVMDGAssemblyAnnotationWriter::AnnotationOptsT`
(a bitmask enum; modelled as a finite set of flags). -/
inductive AnnotFlag where
  | ANNOTATE_DD
  | ANNOTATE_CD
  | ANNOTATE_RD
  | ANNOTATE_PTR
  | ANNOTATE_SLICE
deriving DecidableEq, Repr

/-- `AnnotationOptsT` is a bitmask over the five annotation categories;
each field is one bit, bitwise-or is field-wise disjunction, zero is the
all-false mask. -/
structure AnnotationOptsT where
  dd : Bool
  cd : Bool
  rd : Bool
  ptr : Bool
  slice : Bool
deriving DecidableEq, Repr

/-- Bitwise-or of two option masks (`opts |= flag`). -/
def AnnotationOptsT.orMask (a b : AnnotationOptsT) : AnnotationOptsT :=
  ⟨a.dd || b.dd, a.cd || b.cd, a.rd || b.rd, a.ptr || b.ptr,
   a.slice || b.slice⟩

instance : Union AnnotationOptsT := ⟨AnnotationOptsT.orMask⟩

/-- The zero mask: no annotation selected. -/
instance : EmptyCollection AnnotationOptsT :=
  ⟨⟨false, false, false, false, false⟩⟩

/-- The mask with exactly the given flag's bit set. -/
def AnnotationOptsT.single (f : AnnotFlag) : AnnotationOptsT :=
  match f with
  | .ANNOTATE_DD => ⟨true, false, false, false, false⟩
  | .ANNOTATE_CD => ⟨false, true, false, false, false⟩
  | .ANNOTATE_RD => ⟨false, false, true, false, false⟩
  | .ANNOTATE_PTR => ⟨false, false, false, true, false⟩
  | .ANNOTATE_SLICE => ⟨false, false, false, false, true⟩

/-- Whether a flag's bit is set in the mask. -/
def AnnotationOptsT.hasFlag (o : AnnotationOptsT) (f : AnnotFlag) : Bool :=
  match f with
  | .ANNOTATE_DD => o.dd
  | .ANNOTATE_CD => o.cd
  | .ANNOTATE_RD => o.rd
  | .ANNOTATE_PTR => o.ptr
  | .ANNOTATE_SLICE => o.slice

instance : Membership AnnotFlag AnnotationOptsT :=
  ⟨fun o f => o.hasFlag f = true⟩

instance (f : AnnotFlag) (o : AnnotationOptsT) : Decidable (f ∈ o) :=
  inferInstanceAs (Decidable (o.hasFlag f = true))

/-- `LLVMPointerAnalysisOptions::AnalysisType` as matched by
`ModuleAnnotator::annotate` (flow-insensitive, flow-sensitive,
flow-sensitive with invalidate). -/
inductive AnalysisType where
  | fi
  | fs
  | inv
deriving DecidableEq, Repr

/-- Pointer-analysis options: the analysis type and the field-sensitivity
offset.  `Offset::UNKNOWN` is modelled as `none`; a concrete offset as
`some n`. -/
structure PTAOptionsT where
  analysisType : AnalysisType
  fieldSensitivity : Option Nat
deriving DecidableEq, Repr

/-- Data-dependence-analysis options (only the field the tool prints). -/
structure DDAOptionsT where
  undefinedArePure : Bool
deriving DecidableEq, Repr

/-- Dependence-graph options (only the fields the tool reads). -/
structure DGOptions where
  entryFunction : String
  PTAOptions : PTAOptionsT
  DDAOptions : DDAOptionsT
deriving DecidableEq, Repr

/-- The `SlicerOptions` run configuration consumed by the tool (only the
fields `llvm-sdg-dump.cpp` reads). -/
structure SlicerOptions where
  inputFile : String
  slicingCriteria : String
  secondarySlicingCriteria : String
  forwardSlicing : Bool
  removeSlicingCriteria : Bool
  dgOptions : DGOptions
deriving DecidableEq, Repr

/-- Splitting a character list at commas: the accumulator holds the
(reversed) characters of the token being read. -/
def splitListAux : List Char → List Char → List String
  | [], acc => [⟨acc.reverse⟩]
  | c :: cs, acc =>
    if c = ',' then ⟨acc.reverse⟩ :: splitListAux cs []
    else splitListAux cs (c :: acc)

/-- Modelled from the spec: `splitList` lives in `llvm-slicer-utils`
(not under src/); per the spec the annotation-option input "is a
comma-separated list of tokens", so `splitList` yields the
comma-separated tokens of its input. -/
def splitList (opts : String) : List String := splitListAux opts.data []

/-- One step of the option-accumulation loop of `parseAnnotationOptions`
(`llvm-sdg-dump.cpp:196-207`): the if/else-if chain that ors the flag
named by one token into the accumulated options. -/
def parseAnnotStep (opts : AnnotationOptsT) (opt : String) : AnnotationOptsT :=
  if opt = "dd" then opts ∪ .single .ANNOTATE_DD
  else if opt = "cd" then opts ∪ .single .ANNOTATE_CD
  else if opt = "rd" then opts ∪ .single .ANNOTATE_RD
  else if opt = "pta" then opts ∪ .single .ANNOTATE_PTR
  else if opt = "slice" ∨ opt = "sl" ∨ opt = "slicer" then
    opts ∪ .single .ANNOTATE_SLICE
  else opts

/-- `parseAnnotationOptions` (`llvm-sdg-dump.cpp:189-210`): empty input
yields the empty flag set; otherwise the comma-separated tokens are
folded through the flag-accumulation chain. -/
def parseAnnotationOptions (annot : String) : AnnotationOptsT :=
  if annot.isEmpty then {}
  else (splitList annot).foldl parseAnnotStep {}

/-- The flag set a single token names, per the documented vocabulary:
`dd`, `cd`, `rd`, `pta`, and `slice`/`sl`/`slicer`; any other token
names no flag. -/
def tokenFlags (opt : String) : AnnotationOptsT :=
  if opt = "dd" then .single .ANNOTATE_DD
  else if opt = "cd" then .single .ANNOTATE_CD
  else if opt = "rd" then .single .ANNOTATE_RD
  else if opt = "pta" then .single .ANNOTATE_PTR
  else if opt = "slice" ∨ opt = "sl" ∨ opt = "slicer" then
    .single .ANNOTATE_SLICE
  else ∅

/-- The `ModuleAnnotator` helper class of `llvm-sdg-dump.cpp` (its
configuration state; the dependence graph pointer is kept out of the
state and passed to the rendering model explicitly). -/
structure ModuleAnnotator where
  options : SlicerOptions
  annotationOptions : AnnotationOptsT

/-- `ModuleAnnotator::shouldAnnotate` (`llvm-sdg-dump.cpp:134`):
true iff the option bitmask is non-zero. -/
def ModuleAnnotator.shouldAnnotate (a : ModuleAnnotator) : Bool :=
  decide (a.annotationOptions ≠ ∅)

/-- An instruction of the module, as seen by the annotation writer:
its textual form plus the dependence facts the analyses attach to its
node. -/
structure Instr where
  text : String
  ddFacts : List String
  cdFacts : List String
  rdFacts : List String
  ptaFacts : List String
  inSlice : Bool
deriving DecidableEq, Repr

/-- Modelled from the spec: the per-instruction comment block emitted by
`dg::debug::LLVMDGAssemblyAnnotationWriter` (header not under src/).
Per the spec, for each flag set in the options the corresponding facts
are rendered; a cleared flag contributes nothing. -/
def instrCommentBlock (opts : AnnotationOptsT) (i : Instr) : List String :=
  (if AnnotFlag.ANNOTATE_DD ∈ opts then i.ddFacts else [])
  ++ (if AnnotFlag.ANNOTATE_CD ∈ opts then i.cdFacts else [])
  ++ (if AnnotFlag.ANNOTATE_RD ∈ opts then i.rdFacts else [])
  ++ (if AnnotFlag.ANNOTATE_PTR ∈ opts then i.ptaFacts else [])
  ++ (if AnnotFlag.ANNOTATE_SLICE ∈ opts then
        [if i.inSlice then "slice marker: in" else "slice marker: out"]
      else [])

lemma AnnotationOptsT.mem_def (f : AnnotFlag) (o : AnnotationOptsT) :
    f ∈ o ↔ o.hasFlag f = true := Iff.rfl

lemma AnnotationOptsT.mem_union (f : AnnotFlag) (a b : AnnotationOptsT) :
    f ∈ a ∪ b ↔ f ∈ a ∨ f ∈ b := by
  cases a
  cases b
  cases f <;>
    simp [AnnotationOptsT.mem_def, AnnotationOptsT.hasFlag, Union.union,
          AnnotationOptsT.orMask]

lemma AnnotationOptsT.not_mem_empty (f : AnnotFlag) :
    f ∉ (∅ : AnnotationOptsT) := by
  cases f <;> simp [AnnotationOptsT.mem_def, AnnotationOptsT.hasFlag,
                    EmptyCollection.emptyCollection]

lemma AnnotationOptsT.union_empty (a : AnnotationOptsT) : a ∪ ∅ = a := by
  cases a
  simp [Union.union, AnnotationOptsT.orMask, EmptyCollection.emptyCollection]

/-- The accumulation step of the parsing loop ors in exactly the flag set
the token names. -/
lemma parseAnnotStep_eq (opts : AnnotationOptsT) (t : String) :
    parseAnnotStep opts t = opts ∪ tokenFlags t := by
  unfold parseAnnotStep tokenFlags
  split_ifs <;> simp [AnnotationOptsT.union_empty]

lemma mem_foldl_parseAnnotStep (l : List String) (acc : AnnotationOptsT)
    (f : AnnotFlag) :
    f ∈ l.foldl parseAnnotStep acc ↔ f ∈ acc ∨ ∃ t ∈ l, f ∈ tokenFlags t := by
  induction l generalizing acc with
  | nil => simp
  | cons t ts ih =>
    simp only [List.foldl_cons, ih, parseAnnotStep_eq,
               AnnotationOptsT.mem_union, List.mem_cons]
    constructor
    · rintro ((h | h) | ⟨u, hu, hf⟩)
      · exact Or.inl h
      · exact Or.inr ⟨t, Or.inl rfl, h⟩
      · exact Or.inr ⟨u, Or.inr hu, hf⟩
    · rintro (h | ⟨u, (rfl | hu), hf⟩)
      · exact Or.inl (Or.inl h)
      · exact Or.inl (Or.inr hf)
      · exact Or.inr ⟨u, hu, hf⟩

/-- Claim C1: for every input string, `parseAnnotationOptions` returns
exactly the union of the flag sets named by the recognized tokens of the
comma-separated list (`dd`, `cd`, `rd`, `pta`, `slice`/`sl`/`slicer`);
an unrecognized token names no flag and is silently ignored, and parsing
always succeeds (the function is total). -/
theorem C1_parseAnnotationOptions_union_of_token_flags :
    ∀ (annot : String) (f : AnnotFlag),
      f ∈ parseAnnotationOptions annot ↔
        ∃ t ∈ splitList annot, f ∈ tokenFlags t := by
  intro annot f
  unfold parseAnnotationOptions
  split_ifs with h
  · have hempty : annot = "" := (String.isEmpty_iff annot).mp h
    subst hempty
    constructor
    · intro hf
      exact absurd hf (AnnotationOptsT.not_mem_empty f)
    · rintro ⟨t, ht, hf⟩
      have : t = "" := by
        simpa [splitList, splitListAux] using ht
      subst this
      have : tokenFlags "" = ∅ := by decide
      rw [this] at hf
      exact absurd hf (AnnotationOptsT.not_mem_empty f)
  · rw [mem_foldl_parseAnnotStep]
    simp [AnnotationOptsT.not_mem_empty]

/-- Claim C4: the empty option string parses to the empty flag set; with
the empty flag set `shouldAnnotate` is false and the per-instruction
annotation writer emits nothing, while remaining a total (safely
callable) function. -/
theorem C4_empty_options_annotator_noop :
    parseAnnotationOptions "" = ∅ ∧
    (∀ o : SlicerOptions,
      (ModuleAnnotator.mk o (parseAnnotationOptions "")).shouldAnnotate
        = false) ∧
    (∀ i : Instr, instrCommentBlock (parseAnnotationOptions "") i = []) := by
  refine ⟨by decide, ?_, ?_⟩
  · intro o
    simp [ModuleAnnotator.shouldAnnotate]
    decide
  · intro i
    have h : parseAnnotationOptions "" = ∅ := by decide
    rw [h]
    simp [instrCommentBlock, AnnotationOptsT.not_mem_empty]

/-- The output-file-name computation of `ModuleAnnotator::annotate`
(`llvm-sdg-dump.cpp:139-140`): `fl.replace(fl.end() - 3, fl.end(),
"-debug.ll")` replaces the last three characters of the input path.
For a path shorter than three characters the iterator `fl.end() - 3`
is out of bounds (undefined behaviour), modelled as `none`. -/
def annotOutputFileName (fl : String) : Option String :=
  if 3 ≤ fl.data.length then
    some (String.mk (fl.data.take (fl.data.length - 3)) ++ "-debug.ll")
  else none

/-- Claim C10: the annotated-module file name replaces exactly the last
three characters of the input path with "-debug.ll", so "foo.ll" yields
"foo-debug.ll" and any path ending in a three-character ".ll" extension
keeps its base name; the computation is well-defined only for paths of
length at least three (shorter paths hit out-of-bounds iterator
arithmetic), and a path with a different extension has its base name
truncated. -/
theorem C10_annotOutputFileName_replaces_last_three :
    annotOutputFileName "foo.ll" = some "foo-debug.ll" ∧
    (∀ base : String,
      annotOutputFileName (base ++ ".ll") = some (base ++ "-debug.ll")) ∧
    annotOutputFileName "foo.c" = some "fo-debug.ll" ∧
    (∀ fl : String, fl.data.length < 3 → annotOutputFileName fl = none) := by
  refine ⟨by decide, ?_, by decide, ?_⟩
  · intro base
    have hlen : (base ++ ".ll").data.length = base.data.length + 3 := by
      simp [String.data_append]
    have htake : (base ++ ".ll").data.take (base.data.length + 3 - 3)
        = base.data := by
      simp [String.data_append, List.take_left]
    simp only [annotOutputFileName, hlen, htake, Nat.le_add_left, if_pos]
  · intro fl hfl
    simp only [annotOutputFileName]
    rw [if_neg]
    omega

/-- The C10 theorem applied at concrete inputs: a two-character path is
rejected, and a ".ll" path gets the "-debug.ll" substitution. -/
theorem C10_witness :
    annotOutputFileName "ab" = none ∧
    annotOutputFileName ("x" ++ ".ll") = some ("x" ++ "-debug.ll") :=
  ⟨C10_annotOutputFileName_replaces_last_three.2.2.2 "ab" (by decide),
   C10_annotOutputFileName_replaces_last_three.2.1 "x"⟩

/-- The module-level header comment built by `ModuleAnnotator::annotate`
(`llvm-sdg-dump.cpp:146-172`), translated literal by literal; a C++
`std::to_string` of a boolean renders as "1"/"0", `Offset::UNKNOWN`
field sensitivity is modelled as `none`.  The pointer-analysis if/else-if
chain has no final else branch; it is kept as written. -/
def module_comment (o : SlicerOptions) : String :=
  let mc :=
    "; -- Generated by llvm-slicer --\n;   * slicing criteria: '"
    ++ o.slicingCriteria
    ++ "'\n;   * secondary slicing criteria: '"
    ++ o.secondarySlicingCriteria
    ++ "'\n;   * forward slice: '"
    ++ (if o.forwardSlicing then "1" else "0")
    ++ "'\n;   * remove slicing criteria: '"
    ++ (if o.removeSlicingCriteria then "1" else "0")
    ++ "'\n;   * undefined are pure: '"
    ++ (if o.dgOptions.DDAOptions.undefinedArePure then "1" else "0")
    ++ "'\n;   * pointer analysis: "
  let mc :=
    if o.dgOptions.PTAOptions.analysisType = AnalysisType.fi then
      mc ++ "flow-insensitive\n"
    else if o.dgOptions.PTAOptions.analysisType = AnalysisType.fs then
      mc ++ "flow-sensitive\n"
    else if o.dgOptions.PTAOptions.analysisType = AnalysisType.inv then
      mc ++ "flow-sensitive with invalidate\n"
    else mc
  let mc := mc ++ ";   * PTA field sensitivity: "
  match o.dgOptions.PTAOptions.fieldSensitivity with
  | none => mc ++ "full\n\n"
  | some n => mc ++ toString n ++ "\n\n"

/-- Substring containment on strings, witnessed by the surrounding
pieces. -/
def StrContains (s sub : String) : Prop := ∃ p q, s = p ++ (sub ++ q)

/-- The header's rendering of each pointer-analysis mode. -/
def ptaModeString : AnalysisType → String
  | AnalysisType.fi => "flow-insensitive"
  | AnalysisType.fs => "flow-sensitive"
  | AnalysisType.inv => "flow-sensitive with invalidate"

/-- The part of the header comment preceding the pointer-analysis mode
(helper for exhibiting substring witnesses). -/
def mcPre (sc ssc : String) (fwd rmv undef : Bool) : String :=
  "; -- Generated by llvm-slicer --\n;   * slicing criteria: '"
  ++ sc
  ++ "'\n;   * secondary slicing criteria: '"
  ++ ssc
  ++ "'\n;   * forward slice: '"
  ++ (if fwd then "1" else "0")
  ++ "'\n;   * remove slicing criteria: '"
  ++ (if rmv then "1" else "0")
  ++ "'\n;   * undefined are pure: '"
  ++ (if undef then "1" else "0")
  ++ "'\n"



/-- The mode line as emitted (mode text plus newline). -/
def ptaModeLine : AnalysisType → String
  | AnalysisType.fi => "flow-insensitive\n"
  | AnalysisType.fs => "flow-sensitive\n"
  | AnalysisType.inv => "flow-sensitive with invalidate\n"

/-- The header's rendering of the field-sensitivity setting (helper for
the normal form of the comment). -/
def fsString : Option Nat → String
  | none => "full\n\n"
  | some n => toString n ++ "\n\n"

lemma ptaModeLine_eq (pty : AnalysisType) :
    ptaModeLine pty = ptaModeString pty ++ "\n" := by
  cases pty <;> rfl

/-- The pointer-analysis if/else-if chain of `annotate` appends exactly
the mode line for the (three-valued) analysis type. -/
lemma mode_append (mc : String) (pty : AnalysisType) :
    (if pty = AnalysisType.fi then mc ++ "flow-insensitive\n"
     else if pty = AnalysisType.fs then mc ++ "flow-sensitive\n"
     else if pty = AnalysisType.inv then
       mc ++ "flow-sensitive with invalidate\n"
     else mc) = mc ++ ptaModeLine pty := by
  cases pty <;> simp [ptaModeLine]

/-- Normal form of `module_comment`: the prefix up to the
pointer-analysis line followed by the mode and field-sensitivity
renderings. -/
lemma module_comment_eq (inF sc ssc : String) (fwd rmv : Bool)
    (entry : String) (pty : AnalysisType) (fsens : Option Nat)
    (undef : Bool) :
    module_comment ⟨inF, sc, ssc, fwd, rmv, ⟨entry, ⟨pty, fsens⟩, ⟨undef⟩⟩⟩
      = mcPre sc ssc fwd rmv undef
        ++ (";   * pointer analysis: "
        ++ (ptaModeLine pty
        ++ (";   * PTA field sensitivity: " ++ fsString fsens))) := by
  cases fsens <;>
    · simp only [module_comment]
      rw [mode_append]
      simp only [mcPre, fsString, String.append_assoc,
        show ("'\n;   * pointer analysis: " : String)
            = "'\n" ++ ";   * pointer analysis: " from rfl]

/-- Claim C5: the header comment of `annotate` records the run's
configuration: it starts with the generator banner followed by the
primary and secondary slicing-criteria strings, and it contains the
pointer-analysis mode line (one of flow-insensitive, flow-sensitive,
flow-sensitive with invalidate) and the points-to field-sensitivity
line ("full" for an unknown offset, the numeric value otherwise). -/
theorem C5_module_comment_records_configuration (o : SlicerOptions) :
    (∃ rest, module_comment o =
      "; -- Generated by llvm-slicer --\n;   * slicing criteria: '"
      ++ (o.slicingCriteria
      ++ ("'\n;   * secondary slicing criteria: '"
      ++ (o.secondarySlicingCriteria ++ ("'\n" ++ rest))))) ∧
    StrContains (module_comment o)
      (";   * pointer analysis: "
        ++ (ptaModeString o.dgOptions.PTAOptions.analysisType ++ "\n")) ∧
    (o.dgOptions.PTAOptions.fieldSensitivity = none →
      StrContains (module_comment o) (";   * PTA field sensitivity: full\n")) ∧
    (∀ n, o.dgOptions.PTAOptions.fieldSensitivity = some n →
      StrContains (module_comment o)
        (";   * PTA field sensitivity: " ++ (toString n ++ "\n"))) := by
  obtain ⟨inF, sc, ssc, fwd, rmv, entry, ⟨pty, fsens⟩, ⟨undef⟩⟩ := o
  rw [module_comment_eq]
  refine ⟨?_, ?_, ?_, ?_⟩
  · refine ⟨";   * forward slice: '"
      ++ ((if fwd then "1" else "0")
      ++ ("'\n;   * remove slicing criteria: '"
      ++ ((if rmv then "1" else "0")
      ++ ("'\n;   * undefined are pure: '"
      ++ ((if undef then "1" else "0")
      ++ ("'\n"
      ++ (";   * pointer analysis: "
      ++ (ptaModeLine pty
      ++ (";   * PTA field sensitivity: " ++ fsString fsens))))))))), ?_⟩
    simp only [mcPre, String.append_assoc,
      show ("'\n;   * forward slice: '" : String)
          = "'\n" ++ ";   * forward slice: '" from rfl]
  · exact ⟨mcPre sc ssc fwd rmv undef,
      ";   * PTA field sensitivity: " ++ fsString fsens,
      by simp only [ptaModeLine_eq, String.append_assoc]⟩
  · intro h
    subst h
    refine ⟨mcPre sc ssc fwd rmv undef
        ++ (";   * pointer analysis: " ++ ptaModeLine pty), "\n", ?_⟩
    simp only [fsString, String.append_assoc,
      show (";   * PTA field sensitivity: full\n" : String)
          = ";   * PTA field sensitivity: " ++ "full\n" from rfl,
      show ("full\n\n" : String) = "full\n" ++ "\n" from rfl]
  · intro n h
    subst h
    refine ⟨mcPre sc ssc fwd rmv undef
        ++ (";   * pointer analysis: " ++ ptaModeLine pty), "\n", ?_⟩
    simp only [fsString, String.append_assoc,
      show ("\n\n" : String) = "\n" ++ "\n" from rfl]

/-- A sample run configuration with unknown field sensitivity. -/
def sampleOptions : SlicerOptions :=
  ⟨"test.ll", "main:5", "x,y", false, false,
   ⟨"main", ⟨AnalysisType.fi, none⟩, ⟨false⟩⟩⟩

/-- A sample run configuration with a concrete field-sensitivity
offset. -/
def sampleOptions2 : SlicerOptions :=
  ⟨"test.ll", "main:5", "x,y", false, false,
   ⟨"main", ⟨AnalysisType.fs, some 4⟩, ⟨false⟩⟩⟩

/-- The C5 theorem applied at concrete configurations, discharging the
field-sensitivity hypotheses. -/
theorem C5_witness :
    StrContains (module_comment sampleOptions)
      (";   * PTA field sensitivity: full\n") ∧
    StrContains (module_comment sampleOptions2)
      (";   * PTA field sensitivity: " ++ (toString 4 ++ "\n")) :=
  ⟨(C5_module_comment_records_configuration sampleOptions).2.2.1 rfl,
   (C5_module_comment_records_configuration sampleOptions2).2.2.2 4 rfl⟩

/-- Characters of a file name with its (last-dot) suffix removed; a name
without a dot is kept whole. -/
def dropSuffixChars (l : List Char) : List Char :=
  if '.' ∈ l then ((l.reverse.dropWhile (fun c => c ≠ '.')).drop 1).reverse
  else l

/-- Modelled from the spec: `replace_suffix` lives in `llvm-slicer-utils`
(not under src/); per the spec, output names are "the input file name
with a fixed suffix substitution", so the file-name suffix is replaced
by the given one. -/
def replace_suffix (fl sfx : String) : String :=
  String.mk (dropSuffixChars fl.data) ++ sfx

/-- A node of the system dependence graph as the dot exporter sees it:
a stable numeric identifier, a label, and its outgoing edges as
(kind, target-identifier) pairs. -/
structure SDGNode where
  id : Nat
  label : String
  edges : List (String × Nat)
deriving DecidableEq, Repr

/-- The system dependence graph as handed to the exporter: its nodes in
whatever order the underlying (pointer-keyed) containers yield them. -/
structure SDG where
  nodes : List SDGNode
deriving DecidableEq, Repr

/-- One edge line of the dot output. -/
def renderEdge (src : Nat) (e : String × Nat) : String :=
  "  " ++ toString src ++ " -> " ++ toString e.2 ++ " [" ++ e.1 ++ "]\n"

/-- The dot lines a single node contributes: its declaration line
followed by its edge lines in sorted order. -/
def renderNode (n : SDGNode) : String :=
  toString n.id ++ " [" ++ n.label ++ "]\n"
  ++ String.join
       (List.insertionSort (fun a b : String => a ≤ b)
         (n.edges.map (renderEdge n.id)))

/-- Modelled from the spec: the `SDG2Dot` exporter (header not under
src/); per the spec it renders every node and edge with a "stable
node/edge ordering" so that the output is byte-identical across runs;
the node blocks are emitted in sorted order. -/
def exportDot (g : SDG) (dump_opts : Nat) : String :=
  "digraph SDG " ++ toString dump_opts ++ "\n"
  ++ String.join
       (List.insertionSort (fun a b : String => a ≤ b)
         (g.nodes.map renderNode))

/-- The `SDGDumper` helper class of `llvm-sdg-dump.cpp` (its
configuration state; the graph is passed to `dumpToDot` explicitly). -/
structure SDGDumper where
  options : SlicerOptions
  bb_only : Bool
  dump_opts : Nat

/-- `SDGDumper::dumpToDot` (`llvm-sdg-dump.cpp:102-120`): composes the
output name by suffix substitution (".dot" unless a suffix is given);
with `bb_only` set it hits `assert(false && "Not implemented")`,
modelled as a fatal error; otherwise `SDG2Dot` renders the graph. -/
def SDGDumper.dumpToDot (d : SDGDumper) (g : SDG) (suffix : Option String) :
    Except String (String × String) :=
  let fl := match suffix with
    | some s => replace_suffix d.options.inputFile s
    | none => replace_suffix d.options.inputFile ".dot"
  if d.bb_only then Except.error "Not implemented"
  else Except.ok (fl, exportDot g d.dump_opts)

/-- Claim C2: with basic-block-only granularity requested, `dumpToDot`
fails with the reported "Not implemented" assertion for that invocation;
it never returns a per-instruction-node dump and never silently
succeeds. -/
theorem C2_bb_only_is_fatal :
    ∀ (opts : SlicerOptions) (dopts : Nat) (g : SDG) (suffix : Option String),
      (SDGDumper.mk opts true dopts).dumpToDot g suffix
          = Except.error "Not implemented" ∧
      ∀ out, (SDGDumper.mk opts true dopts).dumpToDot g suffix
          ≠ Except.ok out := by
  intro opts dopts g suffix
  constructor
  · simp [SDGDumper.dumpToDot]
  · intro out
    simp [SDGDumper.dumpToDot]

/-- Claim C7: the dot dump goes to the input file name with its suffix
replaced - by ".dot" when no suffix argument is supplied, and by the
caller-supplied suffix otherwise. -/
theorem C7_dumpToDot_filename :
    (∀ (d : SDGDumper) (g : SDG) (suffix : Option String),
      d.bb_only = false →
      d.dumpToDot g suffix
        = Except.ok
            (replace_suffix d.options.inputFile (suffix.getD ".dot"),
             exportDot g d.dump_opts)) ∧
    replace_suffix "foo.bc" ".dot" = "foo.dot" ∧
    replace_suffix "foo.bc" ".sdg.dot" = "foo.sdg.dot" := by
  refine ⟨?_, by decide, by decide⟩
  intro d g suffix h
  cases suffix <;> simp [SDGDumper.dumpToDot, h]

/-- The C7 theorem applied at a concrete dumper with default suffix. -/
theorem C7_witness :
    (SDGDumper.mk sampleOptions false 0).dumpToDot (SDG.mk []) none
      = Except.ok
          (replace_suffix sampleOptions.inputFile ".dot",
           exportDot (SDG.mk []) 0) :=
  C7_dumpToDot_filename.1 (SDGDumper.mk sampleOptions false 0)
    (SDG.mk []) none rfl

/-- Claim C9: the dot export is deterministic: two graphs whose node
containers hold the same nodes - in any order, as pointer-keyed C++
containers may enumerate them differently across runs - export to
byte-identical output, and a node renders identically however its edge
container is ordered. -/
theorem C9_exportDot_deterministic :
    (∀ (g1 g2 : SDG) (dopts : Nat), g1.nodes.Perm g2.nodes →
        exportDot g1 dopts = exportDot g2 dopts) ∧
    (∀ (n m : SDGNode), n.id = m.id → n.label = m.label →
        n.edges.Perm m.edges → renderNode n = renderNode m) := by
  constructor
  · intro g1 g2 dopts hp
    unfold exportDot
    have hperm :
        (List.insertionSort (fun a b : String => a ≤ b)
            (g1.nodes.map renderNode)).Perm
          (List.insertionSort (fun a b : String => a ≤ b)
            (g2.nodes.map renderNode)) :=
      ((List.perm_insertionSort _ _).trans (hp.map renderNode)).trans
        (List.perm_insertionSort _ _).symm
    rw [List.eq_of_perm_of_sorted hperm
      (List.sorted_insertionSort _ _) (List.sorted_insertionSort _ _)]
  · intro n m hid hlab hedges
    obtain ⟨i, l, e⟩ := n
    obtain ⟨j, k, f⟩ := m
    simp only at hid hlab hedges
    subst hid
    subst hlab
    unfold renderNode
    have hperm :
        (List.insertionSort (fun a b : String => a ≤ b)
            (e.map (renderEdge i))).Perm
          (List.insertionSort (fun a b : String => a ≤ b)
            (f.map (renderEdge i))) :=
      ((List.perm_insertionSort _ _).trans (hedges.map (renderEdge i))).trans
        (List.perm_insertionSort _ _).symm
    rw [List.eq_of_perm_of_sorted hperm
      (List.sorted_insertionSort _ _) (List.sorted_insertionSort _ _)]

/-- A two-node graph, and the same graph with its node container
enumerated in the opposite order. -/
def gEx1 : SDG := SDG.mk [⟨1, "a", [("dd", 2)]⟩, ⟨2, "b", []⟩]

/-- The nodes of `gEx1` in reversed container order. -/
def gEx2 : SDG := SDG.mk [⟨2, "b", []⟩, ⟨1, "a", [("dd", 2)]⟩]

/-- The C9 theorem applied to the two enumeration orders of the same
graph. -/
theorem C9_witness : exportDot gEx1 0 = exportDot gEx2 0 :=
  C9_exportDot_deterministic.1 gEx1 gEx2 0 (by decide)

/-- Worklist traversal of the dependence closure with a per-call visited
list: a node already visited is skipped, a node inside the graph is
recorded and its successors are enqueued, anything else is dropped.
Termination: each step either shrinks the set of unvisited graph nodes
or shortens the worklist. -/
def visitAux (succ : Nat → List Nat) (bound : List Nat) :
    List Nat → List Nat → List Nat
  | [], visited => visited
  | n :: ws, visited =>
    if n ∈ visited then visitAux succ bound ws visited
    else if n ∈ bound then visitAux succ bound (succ n ++ ws) (n :: visited)
    else visitAux succ bound ws visited
termination_by ws visited =>
  ((bound.toFinset \ visited.toFinset).card, ws.length)
decreasing_by
  · apply Prod.Lex.right
    simp
  · apply Prod.Lex.left
    rw [List.toFinset_cons, Finset.sdiff_insert]
    apply Finset.card_erase_lt_of_mem
    simp only [Finset.mem_sdiff, List.mem_toFinset]
    constructor <;> assumption
  · apply Prod.Lex.right
    simp

lemma visitAux_nodup (succ : Nat → List Nat) (bound : List Nat) :
    ∀ (ws visited : List Nat), visited.Nodup →
      (visitAux succ bound ws visited).Nodup := by
  intro ws visited
  induction ws, visited using visitAux.induct succ bound with
  | case1 visited => intro h; rw [visitAux]; exact h
  | case2 n ws visited hmem ih =>
    intro h
    rw [visitAux, if_pos hmem]
    exact ih h
  | case3 n ws visited hmem hbnd ih =>
    intro h
    rw [visitAux, if_neg hmem, if_pos hbnd]
    exact ih (List.nodup_cons.mpr ⟨hmem, h⟩)
  | case4 n ws visited hmem hbnd ih =>
    intro h
    rw [visitAux, if_neg hmem, if_neg hbnd]
    exact ih h

/-- The dependence graph as the criteria-resolution code sees it: the
node handles belonging to the graph, the control- and data-dependence
successor relations, and each node's variable name. -/
structure DepGraph where
  nodes : List Nat
  ctrlDeps : Nat → List Nat
  dataDeps : Nat → List Nat
  nodeName : Nat → String
  nodeLoc : Nat → String

/-- Modelled from the spec: `findSecondarySlicingCriteria` is defined in
`llvm-slicer-crit.cpp` (not under src/; declared in the comment at
`llvm-sdg-dump.cpp:256-258`).  Per the spec it traverses the dependence
closure reachable from the seed nodes via control-dependence edges and
via data-dependence edges, with a per-call visited set keyed by node
identity, and adds every reached node whose variable name is in the
control (resp. data) secondary-criteria name set. -/
def findSecondarySlicingCriteria (g : DepGraph) (criteria_nodes : List Nat)
    (secondaryControlCriteria secondaryDataCriteria : List String) :
    List Nat :=
  let ctrlVisited := visitAux g.ctrlDeps g.nodes criteria_nodes []
  let dataVisited := visitAux g.dataDeps g.nodes criteria_nodes []
  let adds :=
    ctrlVisited.filter (fun n => g.nodeName n ∈ secondaryControlCriteria)
    ++ dataVisited.filter (fun n => g.nodeName n ∈ secondaryDataCriteria)
  adds.foldl (fun acc n => if n ∈ acc then acc else acc ++ [n]) criteria_nodes

/-- A two-node dependence graph with a cycle through node 0 in both edge
kinds; node 0 is named "a" and node 1 is named "b". -/
def cycleGraph : DepGraph :=
  ⟨[0, 1],
   fun n => if n = 0 then [1] else [0],
   fun n => if n = 0 then [1] else [0],
   fun n => if n = 0 then "a" else "b",
   fun n => if n = 0 then "f:1" else "f:2"⟩

/-- Claim C8: the secondary-criteria closure terminates on every finite
dependence graph because its per-call visited list never records a node
twice (each node is visited at most once per call), and in particular
`findSecondarySlicingCriteria` computes through a graph with a cycle
through the seed node. -/
theorem C8_findSecondarySlicingCriteria_terminates :
    (∀ (succ : Nat → List Nat) (bound ws : List Nat),
        (visitAux succ bound ws []).Nodup) ∧
    findSecondarySlicingCriteria cycleGraph [0] ["a"] ["b"] = [0, 1] := by
  constructor
  · intro succ bound ws
    exact visitAux_nodup succ bound ws [] List.nodup_nil
  · simp only [findSecondarySlicingCriteria, cycleGraph]
    rw [visitAux]
    simp only [List.not_mem_nil, if_neg, if_pos, List.mem_cons,
      List.mem_singleton]
    norm_num
    rw [visitAux]
    norm_num
    rw [visitAux]
    norm_num
    rw [visitAux]
    norm_num [List.filter, List.foldl]

/-- An LLVM module as the tool sees it: its function names and its
instructions in program order. -/
structure ModuleT where
  functions : List String
  instructions : List Instr

/-- `ModuleAnnotator::annotate` (`llvm-sdg-dump.cpp:136-185`): composes
the output file name (see `annotOutputFileName`; `none` models the
out-of-bounds iterator arithmetic on short paths), then emits the module
header comment followed by each instruction's comment block and text.
The `criteria` argument mirrors the writer's criteria pointer. -/
def ModuleAnnotator.annotate (a : ModuleAnnotator) (m : ModuleT)
    (criteria : List Nat) : Option (String × String) :=
  match annotOutputFileName a.options.inputFile with
  | none => none
  | some fl =>
      some (fl,
        module_comment a.options
        ++ String.join
             (m.instructions.map
               (fun i =>
                 String.join (instrCommentBlock a.annotationOptions i)
                 ++ i.text)))

/-- Splitting a character list at a given separator character. -/
def splitOnChar (sep : Char) : List Char → List Char → List String
  | [], acc => [⟨acc.reverse⟩]
  | c :: cs, acc =>
    if c = sep then ⟨acc.reverse⟩ :: splitOnChar sep cs []
    else splitOnChar sep cs (c :: acc)

/-- Modelled from the spec: `getSlicingCriteriaNodes`
(`llvm-slicer-crit.cpp`, not under src/; declared in the comment at
`llvm-sdg-dump.cpp:250-251`).  Per the spec the resolver scans all nodes
of the graph and a node matches when its source-location metadata equals
the requested criterion; all matches are included. -/
def getSlicingCriteriaNodes (g : DepGraph) (slicingCriteria : String) :
    List Nat :=
  g.nodes.filter (fun n => g.nodeLoc n = slicingCriteria)

/-- Modelled from the spec: `parseSecondarySlicingCriteria`
(`llvm-slicer-crit.cpp`, not under src/; declared in the comment at
`llvm-sdg-dump.cpp:253-254`) parses the secondary string "into two
disjoint name sets (controlNames, dataNames)"; modelled as a
semicolon-separated pair of comma-separated name lists. -/
def parseSecondarySlicingCriteria (s : String) :
    List String × List String :=
  let parts := splitOnChar ';' s.data []
  (splitList (parts.headD ""), splitList ((parts.drop 1).headD ""))

/-- The observable outcome of one run of the tool. -/
inductive MainResult where
  | exited (code : Nat) (msgs : List String)
  | aborted (msg : String) (msgs : List String)
  | undefinedBehaviour (msgs : List String)
  | finished (annotated : Option (String × String)) (dot : String × String)
      (msgs : List String)
deriving Repr

/-- `main` (`llvm-sdg-dump.cpp:261-320`): parse the module (outcome is
the `parsed` argument), fail with exit code 1 when parsing fails or the
entry function is missing; resolve the slicing criteria (the block at
lines 287-310 of the source, commented out there; its behaviour is the
spec's), reporting a miss as a diagnostic while proceeding; fail when
secondary-criteria search cannot proceed (`secondaryOk` models the
availability of the needed analysis results); annotate when requested;
dump the graph to dot.  An `assert` failure aborts; the short-path
file-name arithmetic is undefined behaviour. -/
def mainRun (parsed : Option ModuleT) (options : SlicerOptions)
    (annotationOpts : String) (dump_bb_only : Bool)
    (g : DepGraph) (sdg : SDG) (secondaryOk : Bool) : MainResult :=
  match parsed with
  | none => .exited 1 ["Failed parsing '" ++ options.inputFile ++ "' file:"]
  | some m =>
    if options.dgOptions.entryFunction ∈ m.functions then
      let annotator :=
        ModuleAnnotator.mk options (parseAnnotationOptions annotationOpts)
      let criteria_nodes := getSlicingCriteriaNodes g options.slicingCriteria
      let missMsgs :=
        if criteria_nodes.isEmpty then
          ["Did not find slicing criteria: '"
            ++ options.slicingCriteria ++ "'"]
        else []
      if secondaryOk then
        let secondaryCriteria :=
          parseSecondarySlicingCriteria options.secondarySlicingCriteria
        let criteria_nodes :=
          findSecondarySlicingCriteria g criteria_nodes
            secondaryCriteria.1 secondaryCriteria.2
        let annotatedR : Except Unit (Option (String × String)) :=
          if annotator.shouldAnnotate then
            match annotator.annotate m criteria_nodes with
            | none => .error ()
            | some out => .ok (some out)
          else .ok none
        match annotatedR with
        | .error _ => .undefinedBehaviour missMsgs
        | .ok annotated =>
          match (SDGDumper.mk options dump_bb_only 0).dumpToDot sdg none with
          | .error e => .aborted e missMsgs
          | .ok dot => .finished annotated dot missMsgs
      else
        .exited 1
          (missMsgs ++ ["Finding secondary slicing criteria nodes failed"])
    else
      .exited 1
        ["The entry function not found: "
          ++ options.dgOptions.entryFunction]

/-- Claim C6: a failed parse or a missing entry function is fatal: the
run exits with code 1 after reporting the condition, and neither an
annotated module nor a dot file is produced (the `exited` outcome
carries no output artifact). -/
theorem C6_input_errors_fatal :
    (∀ (options : SlicerOptions) (annotStr : String) (bb : Bool)
        (g : DepGraph) (sdg : SDG) (ok : Bool),
      mainRun none options annotStr bb g sdg ok
        = MainResult.exited 1
            ["Failed parsing '" ++ options.inputFile ++ "' file:"]) ∧
    (∀ (m : ModuleT) (options : SlicerOptions) (annotStr : String)
        (bb : Bool) (g : DepGraph) (sdg : SDG) (ok : Bool),
      options.dgOptions.entryFunction ∉ m.functions →
      mainRun (some m) options annotStr bb g sdg ok
        = MainResult.exited 1
            ["The entry function not found: "
              ++ options.dgOptions.entryFunction]) := by
  constructor
  · intro options annotStr bb g sdg ok
    rfl
  · intro m options annotStr bb g sdg ok h
    simp only [mainRun, if_neg h]

/-- A sample module with one function and no instructions. -/
def sampleModule : ModuleT := ⟨["main"], []⟩

/-- The C6 theorem applied at a module lacking the requested entry
function. -/
theorem C6_witness :
    mainRun (some (ModuleT.mk ["foo"] [])) sampleOptions "" false
        cycleGraph (SDG.mk []) true
      = MainResult.exited 1
          ["The entry function not found: "
            ++ sampleOptions.dgOptions.entryFunction] :=
  C6_input_errors_fatal.2 (ModuleT.mk ["foo"] []) sampleOptions "" false
    cycleGraph (SDG.mk []) true (by decide)

/-- The secondary-criteria search started from no seed nodes adds
nothing. -/
lemma findSecondarySlicingCriteria_nil (g : DepGraph)
    (cn dn : List String) :
    findSecondarySlicingCriteria g [] cn dn = [] := by
  have hnil : ∀ (succ : Nat → List Nat) (bound : List Nat),
      visitAux succ bound [] [] = [] := fun succ bound => by rw [visitAux]
  simp [findSecondarySlicingCriteria, hnil]

/-- Claim C3: a slicing criterion matching no node is non-fatal: the
miss is reported as a diagnostic and the run still finishes, rendering
the annotated module (when annotation was requested) with the empty
criteria set and writing the dot file. -/
theorem C3_resolution_miss_nonfatal (m : ModuleT) (options : SlicerOptions)
    (annotStr : String) (g : DepGraph) (sdg : SDG)
    (hentry : options.dgOptions.entryFunction ∈ m.functions)
    (hmiss : getSlicingCriteriaNodes g options.slicingCriteria = [])
    (hlen : 3 ≤ options.inputFile.data.length) :
    mainRun (some m) options annotStr false g sdg true
      = MainResult.finished
          (if (ModuleAnnotator.mk options
                (parseAnnotationOptions annotStr)).shouldAnnotate then
             (ModuleAnnotator.mk options
                (parseAnnotationOptions annotStr)).annotate m []
           else none)
          (replace_suffix options.inputFile ".dot", exportDot sdg 0)
          ["Did not find slicing criteria: '"
            ++ options.slicingCriteria ++ "'"] := by
  simp only [mainRun, if_pos hentry, hmiss, List.isEmpty_nil, if_true,
    findSecondarySlicingCriteria_nil]
  have hdot :
      (SDGDumper.mk options false 0).dumpToDot sdg none
        = Except.ok
            (replace_suffix options.inputFile ".dot", exportDot sdg 0) := by
    simp [SDGDumper.dumpToDot]
  by_cases hsa :
      (ModuleAnnotator.mk options
        (parseAnnotationOptions annotStr)).shouldAnnotate
  · have hout :
        (ModuleAnnotator.mk options
          (parseAnnotationOptions annotStr)).annotate m []
          = some
              ((annotOutputFileName options.inputFile).getD "",
               module_comment options
               ++ String.join
                    (m.instructions.map
                      (fun i =>
                        String.join
                          (instrCommentBlock
                            (parseAnnotationOptions annotStr) i)
                        ++ i.text))) := by
      simp only [ModuleAnnotator.annotate, annotOutputFileName,
        if_pos hlen, Option.getD_some]
    simp [hsa, hout, hdot]
  · simp only [Bool.not_eq_true] at hsa
    simp [hsa, hdot]

/-- The C3 theorem applied at a concrete run whose criterion matches no
node of the graph. -/
theorem C3_witness :
    mainRun (some sampleModule) sampleOptions "" false cycleGraph
        (SDG.mk []) true
      = MainResult.finished
          (if (ModuleAnnotator.mk sampleOptions
                (parseAnnotationOptions "")).shouldAnnotate then
             (ModuleAnnotator.mk sampleOptions
                (parseAnnotationOptions "")).annotate sampleModule []
           else none)
          (replace_suffix sampleOptions.inputFile ".dot",
           exportDot (SDG.mk []) 0)
          ["Did not find slicing criteria: '"
            ++ sampleOptions.slicingCriteria ++ "'"] :=
  C3_resolution_miss_nonfatal sampleModule sampleOptions "" cycleGraph
    (SDG.mk []) (by decide) (by decide) (by decide)
